import Mathlib

/-!
Shallow embedding of the `TaskConsumer` message-processing pipeline
(`src/ai-service/task_consumer.py` and the health endpoint of
`src/ai-service/main.py`).

Text is modelled as `List Char`; Python's substring test `kw in text` is the
decidable list-infix predicate; the TextBlob polarity score is an external
oracle passed as a function; RabbitMQ and PostgreSQL outcomes are modelled by
explicit environments recording which external calls fail.
-/

namespace TaskConsumer

/-- `analyze_task` line 66: `text = f"{title}. {description}"`. -/
def textOf (title description : List Char) : List Char :=
  title ++ ('.' :: ' ' :: description)

/-- Python `str.lower()` on the char-list model. -/
def lowerStr (s : List Char) : List Char :=
  s.map Char.toLower

/-- `analyze_task` line 83. -/
def work_keywords : List (List Char) :=
  ["work", "meeting", "project", "deadline", "report", "email", "client",
   "business"].map String.data

/-- `analyze_task` line 84. -/
def personal_keywords : List (List Char) :=
  ["home", "family", "personal", "buy", "shopping", "health", "exercise",
   "doctor"].map String.data

/-- `analyze_task` line 85. -/
def urgent_keywords : List (List Char) :=
  ["urgent", "asap", "important", "critical", "emergency", "immediately",
   "priority"].map String.data

/-- Python's substring containment `kw in text` (contiguous occurrence). -/
def kwIn (kw text : List Char) : Bool :=
  decide (kw <:+: text)

/-- Category branch of `analyze_task` (lines 79-93): keyword sets are tried in
the order urgent, work, personal on the lower-cased combined text; the first
set with a substring hit wins, otherwise `"general"`. -/
def categoryOf (title description : List Char) : String :=
  if urgent_keywords.any (fun k => kwIn k (lowerStr (textOf title description))) then
    "urgent"
  else if work_keywords.any (fun k => kwIn k (lowerStr (textOf title description))) then
    "work"
  else if personal_keywords.any (fun k => kwIn k (lowerStr (textOf title description))) then
    "personal"
  else
    "general"

/-- Sentiment branch of `analyze_task` (lines 72-77), over the polarity score
returned by TextBlob. -/
def sentimentOf (polarity : ℚ) : String :=
  if polarity > 1/10 then "positive"
  else if polarity < -(1/10) then "negative"
  else "neutral"

/-- `analyze_task` (lines 63-94): returns `(category, sentiment)`. The TextBlob
polarity of the combined text is supplied by the oracle `pol`. -/
def analyze_task (pol : List Char → ℚ) (title description : List Char) :
    String × String :=
  (categoryOf title description, sentimentOf (pol (textOf title description)))

/-- Python `s.split(sep)` for a one-character separator, on the char-list
model: splitting the empty string gives `[[]]`, and every separator occurrence
opens a new piece. -/
def splitChar (sep : Char) : List Char → List (List Char)
  | [] => [[]]
  | c :: cs =>
    if c = sep then [] :: splitChar sep cs
    else
      match splitChar sep cs with
      | [] => [[c]]
      | h :: t => (c :: h) :: t

/-- Python `s.split(sep, 1)` guarded by `sep in s`: `none` when the separator
does not occur, otherwise the text before the first occurrence and everything
after it. -/
def splitFirst (sep : Char) : List Char → Option (List Char × List Char)
  | [] => none
  | c :: cs =>
    if c = sep then some ([], cs)
    else
      match splitFirst sep cs with
      | none => none
      | some (a, b) => some (c :: a, b)

/-- Python `str.strip()`: drop leading and trailing whitespace. -/
def strip (s : List Char) : List Char :=
  ((s.dropWhile Char.isWhitespace).reverse.dropWhile Char.isWhitespace).reverse

/-- Result of `parse_dotnet_conn_str`: the PostgreSQL connection keyword
arguments the parser may produce (Python builds a dict with exactly these
keys). -/
structure ConnParams where
  host : Option (List Char) := none
  database : Option (List Char) := none
  user : Option (List Char) := none
  password : Option (List Char) := none
  port : Option (List Char) := none
deriving DecidableEq, Repr

/-- One iteration of the loop in `parse_dotnet_conn_str` (lines 98-106): a part
with no `=` is skipped; otherwise the text before the first `=` is stripped,
lower-cased and matched against the five recognised keys, anything else being
dropped. -/
def applyPart (p : ConnParams) (part : List Char) : ConnParams :=
  match splitFirst '=' part with
  | none => p
  | some (k, value) =>
    let key := lowerStr (strip k)
    if key = "host".data then { p with host := some value }
    else if key = "database".data then { p with database := some value }
    else if key = "username".data ∨ key = "user id".data then
      { p with user := some value }
    else if key = "password".data then { p with password := some value }
    else if key = "port".data then { p with port := some value }
    else p

/-- `parse_dotnet_conn_str` (lines 96-107): fold the per-part step over the
semicolon-separated parts, starting from the empty dict. -/
def parse_dotnet_conn_str (connStr : List Char) : ConnParams :=
  (splitChar ';' connStr).foldl applyPart {}

/-- The kinds of exception `update_task_in_db` can see from psycopg2. -/
inductive DbErr
  | connectivity
  | query
deriving DecidableEq, Repr

/-- External state seen by `update_task_in_db`: the optional
`ConnectionStrings__notetakerdb` value, the `POSTGRES_HOST` default, and which
psycopg2 calls raise. -/
structure DbEnv where
  connStrOpt : Option (List Char)
  postgresHost : List Char
  connectFails : ConnParams → Bool
  queryFails : Bool

/-- `self.db_config` from `__init__` (lines 20-25). -/
def defaultDbConfig (postgresHost : List Char) : ConnParams :=
  { host := some postgresHost, database := some "notetakerdb".data,
    user := some "postgres".data, password := some "postgres".data }

/-- The body of the `try` block of `update_task_in_db` (lines 112-136):
resolve connection parameters, connect, execute the UPDATE and commit. An
`Except.error` is a psycopg2 exception escaping the block; `Except.ok` carries
the row values committed. -/
def dbAttempt (env : DbEnv) (task_id : Option String)
    (category sentiment : String) :
    Except DbErr (Option String × String × String) :=
  let params :=
    match env.connStrOpt with
    | some s => parse_dotnet_conn_str s
    | none => defaultDbConfig env.postgresHost
  if env.connectFails params then Except.error DbErr.connectivity
  else if env.queryFails then Except.error DbErr.query
  else Except.ok (task_id, category, sentiment)

/-- `update_task_in_db` (lines 109-139): the whole body is wrapped in
`try/except Exception`, returning `True` on success and `False` on any
exception. -/
def update_task_in_db (env : DbEnv) (task_id : Option String)
    (category sentiment : String) : Bool :=
  match dbAttempt env task_id category sentiment with
  | Except.ok _ => true
  | Except.error _ => false

/-- What `json.loads` plus the `message.get` calls can yield for a delivered
body: a decode failure (raises `JSONDecodeError`), a decoded non-object value
(`.get` raises `AttributeError`), or an object with the three optional
fields. -/
inductive Body
  | undecodable
  | nonObj
  | obj (task_id : Option String) (title description : Option (List Char))

/-- The single broker verdict `process_message` issues for a delivery:
`basic_ack`, or `basic_nack` with its requeue flag. -/
inductive AckAction
  | ack
  | nack (requeue : Bool)
deriving DecidableEq, Repr

/-- `process_message` (lines 141-163): decode, read fields with defaults,
analyze, call `update_task_in_db` (its return value is not inspected), then
`basic_ack`; any exception inside the `try` is answered with
`basic_nack(requeue=True)`. -/
def process_message (env : DbEnv) (pol : List Char → ℚ) (body : Body) :
    AckAction :=
  match body with
  | Body.undecodable => AckAction.nack true
  | Body.nonObj => AckAction.nack true
  | Body.obj task_id titleOpt descOpt =>
    let title := titleOpt.getD []
    let description := descOpt.getD []
    let res := analyze_task pol title description
    let _ := update_task_in_db env task_id res.1 res.2
    AckAction.ack

/-- The loop of `connect_rabbitmq` (lines 35-59) over the attempt list
`range(max_retries)`: the oracle `ok` says whether attempt `i` connects.
Returns `(connected, attemptsMade, sleepsTaken)`, each sleep being the
`time.sleep(5)` of the `except` branch, taken only when `attempt <
max_retries - 1`. -/
def connectLoop (ok : Nat → Bool) (maxRetries : Nat) :
    List Nat → Bool × Nat × List Nat
  | [] => (false, 0, [])
  | attempt :: rest =>
    if ok attempt then (true, 1, [])
    else
      let r := connectLoop ok maxRetries rest
      (r.1, r.2.1 + 1, (if attempt < maxRetries - 1 then [5] else []) ++ r.2.2)

/-- `connect_rabbitmq` (lines 27-61): `max_retries = 5`, `retry_delay = 5`,
`for attempt in range(max_retries)`, `return False` after the loop. -/
def connect_rabbitmq (ok : Nat → Bool) : Bool × Nat × List Nat :=
  connectLoop ok 5 (List.range 5)

/-- The consumer attributes set in `__init__` and mutated by
`start`/`stop`: the running flag and the presence of channel/connection. -/
structure ConsumerState where
  is_running : Bool
  channel : Option Unit
  connection : Option Unit
deriving DecidableEq, Repr

/-- `__init__` (lines 10-13). -/
def initState : ConsumerState :=
  { is_running := false, channel := none, connection := none }

/-- `start` (lines 165-184) up to `start_consuming`: if `connect_rabbitmq`
fails the method returns with the state untouched; otherwise the connection
and channel are live and `is_running` is set. -/
def start (ok : Nat → Bool) (s : ConsumerState) : ConsumerState :=
  if (connect_rabbitmq ok).1 then
    { s with connection := some (), channel := some (), is_running := true }
  else
    s

/-- Broker calls `stop` can make. -/
inductive BrokerOp
  | stopConsuming
  | closeConnection
deriving DecidableEq, Repr

/-- `stop` (lines 194-201): clear the flag, then `stop_consuming` only if the
channel is present and `close` only if the connection is present. -/
def stop (s : ConsumerState) : ConsumerState × List BrokerOp :=
  ({ s with is_running := false },
    (match s.channel with
     | some _ => [BrokerOp.stopConsuming]
     | none => []) ++
    (match s.connection with
     | some _ => [BrokerOp.closeConnection]
     | none => []))

/-- `/health` from `main.py` (lines 48-53): `consumer_running` is false when
no consumer exists, else the consumer's `is_running`. -/
def health_check (consumer : Option ConsumerState) : Bool :=
  match consumer with
  | none => false
  | some s => s.is_running

/-- A database environment in which every connection attempt fails. -/
def envDbFail : DbEnv :=
  { connStrOpt := none, postgresHost := "postgres".data,
    connectFails := fun _ => true, queryFails := false }

/-- A database environment in which nothing fails. -/
def envDbOk : DbEnv :=
  { connStrOpt := none, postgresHost := "postgres".data,
    connectFails := fun _ => false, queryFails := false }

/-- A polarity oracle that scores every text 0. -/
def polZero : List Char → ℚ := fun _ => 0

/-! ### Helper lemmas -/

/-- A list avoiding `x` that is a prefix of `a ++ x :: b` is a prefix of `a`. -/
theorem prefix_before_sep {α : Type _} {x : α} {b : List α} :
    ∀ k a : List α, x ∉ k → k <+: a ++ x :: b → k <+: a := by
  intro k
  induction k with
  | nil => exact fun a _ _ => List.nil_prefix
  | cons c k' ih =>
    intro a hx h
    cases a with
    | nil =>
      simp only [List.nil_append] at h
      rcases List.cons_prefix_cons.mp h with ⟨hc, -⟩
      subst hc
      exact absurd (List.mem_cons_self _ _) hx
    | cons y a' =>
      simp only [List.cons_append] at h
      rcases List.cons_prefix_cons.mp h with ⟨hc, htail⟩
      subst hc
      exact List.cons_prefix_cons.mpr
        ⟨rfl, ih a' (fun hm => hx (List.mem_cons_of_mem _ hm)) htail⟩

/-- A contiguous occurrence avoiding the character `x` cannot straddle it:
it lies entirely before or entirely after. -/
theorem infix_avoiding_sep {α : Type _} {x : α} {b : List α} :
    ∀ k a : List α, x ∉ k → k <:+: a ++ x :: b → k <:+: a ∨ k <:+: b := by
  intro k a
  induction a with
  | nil =>
    intro hx h
    simp only [List.nil_append] at h
    rcases List.infix_cons_iff.mp h with hp | hb
    · rcases List.prefix_cons_iff.mp hp with hk | ⟨t, hkt, -⟩
      · subst hk
        exact Or.inl List.nil_infix
      · refine absurd ?_ hx
        rw [hkt]
        exact List.mem_cons_self _ _
    · exact Or.inr hb
  | cons y a' ih =>
    intro hx h
    simp only [List.cons_append] at h
    rcases List.infix_cons_iff.mp h with hp | hi
    · have hpre : k <+: y :: a' :=
        prefix_before_sep k (y :: a') hx (by simpa using hp)
      exact Or.inl hpre.isInfix
    · rcases ih hx hi with h1 | h2
      · exact Or.inl (List.infix_cons h1)
      · exact Or.inr h2

/-- `kwIn` decides list-infix containment. -/
theorem kwIn_eq_true_iff (kw text : List Char) :
    kwIn kw text = true ↔ kw <:+: text := by
  simp [kwIn]

/-- No classifier keyword contains a dot or a space. -/
theorem keywords_sep_free :
    ∀ kw ∈ urgent_keywords ++ work_keywords ++ personal_keywords,
      ('.' : Char) ∉ kw ∧ (' ' : Char) ∉ kw := by decide

/-- Lower-casing the combined text lower-cases the pieces and keeps the
separator. -/
theorem lowerStr_textOf (t d : List Char) :
    lowerStr (textOf t d) = lowerStr t ++ '.' :: ' ' :: lowerStr d := by
  have h1 : Char.toLower '.' = '.' := by decide
  have h2 : Char.toLower ' ' = ' ' := by decide
  simp [lowerStr, textOf, h1, h2]

/-! ### Claim theorems -/

/-- C3: the category is computed over the lower-cased combined text by
substring containment against the three fixed keyword sets in strict priority
order urgent, work, personal; the first matching set wins and no match yields
`"general"`. In particular an urgent hit decides the category regardless of
work or personal hits. -/
theorem categoryOf_priority_order (t d : List Char) :
    (urgent_keywords.any (fun k => kwIn k (lowerStr (textOf t d))) = true →
      categoryOf t d = "urgent") ∧
    (urgent_keywords.any (fun k => kwIn k (lowerStr (textOf t d))) = false →
      work_keywords.any (fun k => kwIn k (lowerStr (textOf t d))) = true →
      categoryOf t d = "work") ∧
    (urgent_keywords.any (fun k => kwIn k (lowerStr (textOf t d))) = false →
      work_keywords.any (fun k => kwIn k (lowerStr (textOf t d))) = false →
      personal_keywords.any (fun k => kwIn k (lowerStr (textOf t d))) = true →
      categoryOf t d = "personal") ∧
    (urgent_keywords.any (fun k => kwIn k (lowerStr (textOf t d))) = false →
      work_keywords.any (fun k => kwIn k (lowerStr (textOf t d))) = false →
      personal_keywords.any (fun k => kwIn k (lowerStr (textOf t d))) = false →
      categoryOf t d = "general") := by
  refine ⟨fun h1 => ?_, fun h1 h2 => ?_, fun h1 h2 h3 => ?_, fun h1 h2 h3 => ?_⟩
  · simp [categoryOf, h1]
  · simp [categoryOf, h1, h2]
  · simp [categoryOf, h1, h2, h3]
  · simp [categoryOf, h1, h2, h3]

/-- Witness for `categoryOf_priority_order`: a text with urgent, work and
personal keywords is still categorized urgent. -/
theorem categoryOf_priority_order_witness :
    categoryOf "URGENT project meeting".data "buy food at home".data = "urgent" :=
  (categoryOf_priority_order "URGENT project meeting".data
    "buy food at home".data).1 (by decide)

/-- C4: for polarity `p`, sentiment is positive when `p > 0.1`, negative when
`p < -0.1`, neutral when `-0.1 ≤ p ≤ 0.1`; in particular the boundary values
`±0.1` map to neutral. -/
theorem sentimentOf_thresholds (p : ℚ) :
    (p > 1/10 → sentimentOf p = "positive") ∧
    (p < -(1/10) → sentimentOf p = "negative") ∧
    (-(1/10) ≤ p → p ≤ 1/10 → sentimentOf p = "neutral") ∧
    sentimentOf (1/10) = "neutral" ∧
    sentimentOf (-(1/10)) = "neutral" := by
  refine ⟨fun h => ?_, fun h => ?_, fun h1 h2 => ?_, ?_, ?_⟩
  · rw [sentimentOf, if_pos h]
  · rw [sentimentOf, if_neg (by linarith), if_pos h]
  · rw [sentimentOf, if_neg (by linarith), if_neg (by linarith)]
  · norm_num [sentimentOf]
  · norm_num [sentimentOf]

/-- Witness for `sentimentOf_thresholds` at polarities 1, -1 and 0. -/
theorem sentimentOf_thresholds_witness :
    sentimentOf 1 = "positive" ∧ sentimentOf (-1) = "negative" ∧
    sentimentOf 0 = "neutral" :=
  ⟨(sentimentOf_thresholds 1).1 (by norm_num),
   (sentimentOf_thresholds (-1)).2.1 (by norm_num),
   (sentimentOf_thresholds 0).2.2.1 (by norm_num) (by norm_num)⟩

/-- C5: a message whose body fails deserialization is negative-acknowledged
with requeue set true and is never acknowledged. -/
theorem process_message_undecodable_nack (env : DbEnv) (pol : List Char → ℚ) :
    process_message env pol Body.undecodable = AckAction.nack true ∧
    process_message env pol Body.undecodable ≠ AckAction.ack :=
  ⟨rfl, fun h => nomatch h⟩

/-- C10: the classifier analyzes exactly `title ++ ". " ++ description`; a
keyword (none of which contains a dot or space) never matches across the
title/description boundary; and empty title and description yield the
non-empty text `". "` with category `"general"`. -/
theorem analyze_text_boundary :
    (∀ t d : List Char, textOf t d = t ++ ('.' :: ' ' :: d)) ∧
    (∀ t d kw : List Char,
      kw ∈ urgent_keywords ++ work_keywords ++ personal_keywords →
      kwIn kw (lowerStr (textOf t d)) = true →
      kwIn kw (lowerStr t) = true ∨ kwIn kw (lowerStr d) = true) ∧
    textOf [] [] = ['.', ' '] ∧
    textOf [] [] ≠ [] ∧
    categoryOf [] [] = "general" := by
  refine ⟨fun _ _ => rfl, ?_, rfl, by decide, by decide⟩
  intro t d kw hmem hin
  have hsep := keywords_sep_free kw hmem
  rw [kwIn_eq_true_iff, lowerStr_textOf] at hin
  rcases infix_avoiding_sep kw (lowerStr t) hsep.1 hin with h | h
  · exact Or.inl ((kwIn_eq_true_iff _ _).mpr h)
  · have h2 : kw <:+: [] ++ ' ' :: lowerStr d := by simpa using h
    rcases infix_avoiding_sep kw [] hsep.2 h2 with h3 | h3
    · have hk : kw = [] := List.sublist_nil.mp h3.sublist
      exact Or.inl ((kwIn_eq_true_iff _ _).mpr (hk ▸ List.nil_infix))
    · exact Or.inr ((kwIn_eq_true_iff _ _).mpr h3)

/-- Witness for `analyze_text_boundary`: an urgent keyword contained in the
combined text is contained in the title or in the description. -/
theorem analyze_text_boundary_witness :
    kwIn "urgent".data (lowerStr "No URGENT here".data) = true ∨
    kwIn "urgent".data (lowerStr "all fine".data) = true :=
  analyze_text_boundary.2.1 "No URGENT here".data "all fine".data
    "urgent".data (by decide) (by decide)

/-- C1 counterexample: with every database connection failing,
`update_task_in_db` reports failure yet `process_message` still acknowledges
the message instead of negative-acknowledging it. -/
theorem db_failure_still_acked_cex :
    update_task_in_db envDbFail (some "t1") "general" "neutral" = false ∧
    process_message envDbFail polZero (Body.obj (some "t1") none none) =
      AckAction.ack ∧
    process_message envDbFail polZero (Body.obj (some "t1") none none) ≠
      AckAction.nack true :=
  ⟨rfl, rfl, fun h => nomatch h⟩

/-- C1 (amended): `process_message` does not inspect the boolean returned by
`update_task_in_db`; even when the persistence update reports failure, a
successfully decoded message is acknowledged, never negative-acknowledged. -/
theorem process_message_acks_despite_db_failure (env : DbEnv)
    (pol : List Char → ℚ) (tid : Option String) (ti de : Option (List Char))
    (_hfail : update_task_in_db env tid
        (analyze_task pol (ti.getD []) (de.getD [])).1
        (analyze_task pol (ti.getD []) (de.getD [])).2 = false) :
    process_message env pol (Body.obj tid ti de) = AckAction.ack :=
  rfl

/-- Witness for `process_message_acks_despite_db_failure`. -/
theorem process_message_acks_despite_db_failure_witness :
    process_message envDbFail polZero (Body.obj (some "t2") none none) =
      AckAction.ack :=
  process_message_acks_despite_db_failure envDbFail polZero (some "t2")
    none none (by decide)

/-- C2 counterexample: a decoded object without `task_id` is acknowledged,
not negative-acknowledged. -/
theorem missing_task_id_acked_cex :
    process_message envDbOk polZero (Body.obj none none none) =
      AckAction.ack ∧
    process_message envDbOk polZero (Body.obj none none none) ≠
      AckAction.nack true :=
  ⟨rfl, fun h => nomatch h⟩

/-- C2 (amended): a message that decodes as an object lacking `task_id` is not
treated as malformed: `message.get` yields `None`, processing proceeds and the
message is acknowledged. (Only bodies on which decoding or field access raises
are negative-acknowledged.) -/
theorem process_message_acks_missing_task_id (env : DbEnv)
    (pol : List Char → ℚ) (ti de : Option (List Char)) :
    process_message env pol (Body.obj none ti de) = AckAction.ack :=
  rfl

/-- C6: `connect_rabbitmq` makes at most 5 attempts with a fixed 5-second
sleep between consecutive attempts; when every attempt fails it makes exactly
5 attempts, sleeps 4 times, returns exhausted, and `start` then leaves the
state untouched with the running flag false, so the health endpoint reports
`consumer_running: false`. -/
theorem connect_rabbitmq_retry_budget (ok : Nat → Bool) :
    (connect_rabbitmq ok).2.1 ≤ 5 ∧
    ((∀ i, i < 5 → ok i = false) →
      (connect_rabbitmq ok).1 = false ∧
      (connect_rabbitmq ok).2.1 = 5 ∧
      (connect_rabbitmq ok).2.2 = [5, 5, 5, 5] ∧
      start ok initState = initState ∧
      (start ok initState).is_running = false ∧
      health_check (some (start ok initState)) = false) := by
  have hr : List.range 5 = [0, 1, 2, 3, 4] := by decide
  constructor
  · cases h0 : ok 0 <;> cases h1 : ok 1 <;> cases h2 : ok 2 <;>
      cases h3 : ok 3 <;> cases h4 : ok 4 <;>
      simp [connect_rabbitmq, hr, connectLoop, h0, h1, h2, h3, h4]
  · intro hall
    have h0 := hall 0 (by norm_num)
    have h1 := hall 1 (by norm_num)
    have h2 := hall 2 (by norm_num)
    have h3 := hall 3 (by norm_num)
    have h4 := hall 4 (by norm_num)
    have hc : connect_rabbitmq ok = (false, 5, [5, 5, 5, 5]) := by
      simp [connect_rabbitmq, hr, connectLoop, h0, h1, h2, h3, h4]
    refine ⟨by rw [hc], by rw [hc], by rw [hc], ?_, ?_, ?_⟩
    · simp [start, hc]
    · simp [start, hc, initState]
    · simp [health_check, start, hc, initState]

/-- Witness for `connect_rabbitmq_retry_budget` with an always-failing
broker. -/
theorem connect_rabbitmq_retry_budget_witness :
    (connect_rabbitmq (fun _ => false)).1 = false ∧
    (connect_rabbitmq (fun _ => false)).2.1 = 5 ∧
    (connect_rabbitmq (fun _ => false)).2.2 = [5, 5, 5, 5] ∧
    health_check (some (start (fun _ => false) initState)) = false :=
  let h := (connect_rabbitmq_retry_budget (fun _ => false)).2 (by decide)
  ⟨h.1, h.2.1, h.2.2.1, h.2.2.2.2.2⟩

/-- C7: `update_task_in_db` never lets an exception reach its caller: it
returns `false` exactly when the body of its `try` block raises (connectivity
or query error) and `true` exactly when the update commits. -/
theorem update_task_in_db_never_raises (env : DbEnv) (tid : Option String)
    (c s : String) :
    (update_task_in_db env tid c s = false ↔
      ∃ e, dbAttempt env tid c s = Except.error e) ∧
    (update_task_in_db env tid c s = true ↔
      ∃ v, dbAttempt env tid c s = Except.ok v) := by
  cases hd : dbAttempt env tid c s <;> simp [update_task_in_db, hd]

/-- C9: `stop` only clears the running flag as far as state goes, and when
channel and connection are absent it performs no broker operation; in every
case the running flag is false afterwards. -/
theorem stop_safe_without_connection (s : ConsumerState) :
    (stop s).1 = { s with is_running := false } ∧
    (stop s).1.is_running = false ∧
    (s.channel = none → s.connection = none → (stop s).2 = []) := by
  refine ⟨rfl, rfl, fun h1 h2 => ?_⟩
  simp [stop, h1, h2]

/-- Witness for `stop_safe_without_connection` at the freshly initialised
state. -/
theorem stop_safe_without_connection_witness :
    (stop initState).2 = [] ∧ (stop initState).1.is_running = false :=
  ⟨(stop_safe_without_connection initState).2.2 rfl rfl,
   (stop_safe_without_connection initState).2.1⟩

/-- C8: on a `key=value` part, the parser recognises `host`, `database`,
`username`/`user id`, `password` and `port` case-insensitively (after
stripping, on the lower-cased key) and ignores unrecognised keys, which leave
the accumulated parameters untouched and cause no error; the whole-string
parser is the fold of this step over the semicolon-separated parts. -/
theorem parse_conn_str_keys (p : ConnParams) (part k value : List Char)
    (hs : splitFirst '=' part = some (k, value)) :
    (∀ s, parse_dotnet_conn_str s = (splitChar ';' s).foldl applyPart {}) ∧
    (lowerStr (strip k) = "host".data →
      applyPart p part = { p with host := some value }) ∧
    (lowerStr (strip k) = "database".data →
      applyPart p part = { p with database := some value }) ∧
    (lowerStr (strip k) = "username".data ∨ lowerStr (strip k) = "user id".data →
      applyPart p part = { p with user := some value }) ∧
    (lowerStr (strip k) = "password".data →
      applyPart p part = { p with password := some value }) ∧
    (lowerStr (strip k) = "port".data →
      applyPart p part = { p with port := some value }) ∧
    (lowerStr (strip k) ∉ ["host".data, "database".data, "username".data,
        "user id".data, "password".data, "port".data] →
      applyPart p part = p) := by
  refine ⟨fun _ => rfl, fun hk => ?_, fun hk => ?_, fun hk => ?_,
    fun hk => ?_, fun hk => ?_, fun hk => ?_⟩
  · simp only [applyPart, hs]
    rw [if_pos hk]
  · simp only [applyPart, hs]
    rw [if_neg (by rw [hk]; decide), if_pos hk]
  · rcases hk with hk | hk <;> simp only [applyPart, hs]
    · rw [if_neg (by rw [hk]; decide), if_neg (by rw [hk]; decide),
        if_pos (Or.inl hk)]
    · rw [if_neg (by rw [hk]; decide), if_neg (by rw [hk]; decide),
        if_pos (Or.inr hk)]
  · simp only [applyPart, hs]
    rw [if_neg (by rw [hk]; decide), if_neg (by rw [hk]; decide),
      if_neg (by rw [hk]; decide), if_pos hk]
  · simp only [applyPart, hs]
    rw [if_neg (by rw [hk]; decide), if_neg (by rw [hk]; decide),
      if_neg (by rw [hk]; decide), if_neg (by rw [hk]; decide), if_pos hk]
  · simp only [List.mem_cons, List.not_mem_nil, not_or, or_false] at hk
    obtain ⟨n1, n2, n3, n4, n5, n6⟩ := hk
    simp only [applyPart, hs]
    rw [if_neg n1, if_neg n2, if_neg (not_or.mpr ⟨n3, n4⟩), if_neg n5,
      if_neg n6]

/-- Witness for `parse_conn_str_keys`: a mixed-case padded `PORT` key is
recognised and an unknown `SslMode` key is ignored. -/
theorem parse_conn_str_keys_witness :
    applyPart {} " PORT =5432".data = { port := some "5432".data } ∧
    applyPart {} "SslMode=Require".data = ({} : ConnParams) :=
  ⟨(parse_conn_str_keys {} " PORT =5432".data " PORT ".data "5432".data
      (by decide)).2.2.2.2.2.1 (by decide),
   (parse_conn_str_keys {} "SslMode=Require".data "SslMode".data
      "Require".data (by decide)).2.2.2.2.2.2 (by decide)⟩

end TaskConsumer
